import Mathlib

/-!
Shallow embedding of the OpenSky TypeScript client (src/opensky-api.ts).

The client class `OpenSkyClient` holds four pieces of mutable/ambient
state: the constructor credentials `clientId`/`clientSecret`, the
in-memory `accessToken`, and the durable token file at `tokenFilePath`.
We embed that state as the structure `St` and pass it explicitly.
Network I/O (`fetch`) is modelled by an oracle `Net` giving, for each
authentication-endpoint call index and each resource GET index, the
response the server returns.  `St` additionally records the observable
I/O trace: `authCalls` counts POSTs to the authentication endpoint and
`resCalls` logs each resource GET as a pair (url, bearer token used).
JavaScript truthiness of `string | undefined | null` is embedded by
`strTruthy` (undefined/null and the empty string are falsy).
-/

namespace OpenSky

/-- Response of the authentication endpoint, as the code reads it:
`res.status`, `res.statusText`, and `data.access_token` from the JSON
body. -/
structure AuthResp where
  status : Nat
  statusText : String
  access_token : String
deriving DecidableEq

/-- Response of a resource GET: `res.status` and the JSON body
(kept opaque as a string). -/
structure ResResp where
  status : Nat
  body : String
deriving DecidableEq

/-- Network oracle: `auth k` is the response to the k-th
authentication-endpoint POST, `res k` the response to the k-th
resource GET (0-indexed, counted per kind). -/
structure Net where
  auth : Nat → AuthResp
  res : Nat → ResResp

/-- Client state plus observable I/O trace.  `clientId`/`clientSecret`
are the immutable constructor arguments (TS `string | undefined`),
`accessToken` is the private in-memory field, `tokenFile` the content
of the durable file slot (`none` = file absent).  `authCalls` counts
authentication-endpoint calls made so far; `resCalls` logs resource
GETs as (url, bearer token) pairs in issue order. -/
structure St where
  clientId : Option String
  clientSecret : Option String
  accessToken : Option String
  tokenFile : Option String
  authCalls : Nat
  resCalls : List (String × String)
deriving DecidableEq

/-- The errors the client throws, one constructor per `throw new Error`
site, carrying the data interpolated into the message. -/
inductive ApiError where
  | configError
  | tokenFetchFailed (status : Nat) (statusText : String)
  | requestFailed (status : Nat)
  | requestFailedAfterRefresh (status : Nat)
deriving DecidableEq

/-- The fetch API's `res.ok`: status in the inclusive range 200-299. -/
def respOk (status : Nat) : Bool :=
  200 ≤ status && status ≤ 299

/-- JavaScript truthiness of a `string | undefined | null` value:
undefined/null and the empty string are falsy. -/
def strTruthy : Option String → Bool
  | none => false
  | some s => s != ""

/-- Whitespace as stripped by JavaScript's `String.prototype.trim`
(restricted to the common ASCII whitespace characters). -/
def isJsWhitespace (ch : Char) : Bool :=
  ch = ' ' || ch = '\t' || ch = '\n' || ch = '\r'

/-- JavaScript `s.trim()`: remove leading and trailing whitespace. -/
def jsTrim (s : String) : String :=
  String.mk (((s.data.dropWhile isJsWhitespace).reverse.dropWhile isJsWhitespace).reverse)

/-- `fetchAccessToken` (src/opensky-api.ts lines 83-106): throws a
configuration error when either credential is falsy, before any network
call; otherwise POSTs to the authentication endpoint (consuming the
next auth response), throws on non-2xx, else returns the body's
`access_token`. -/
def fetchAccessToken (s : St) (net : Net) : Except ApiError String × St :=
  if !(strTruthy s.clientId) || !(strTruthy s.clientSecret) then
    (Except.error ApiError.configError, s)
  else
    let resp := net.auth s.authCalls
    let s1 := { s with authCalls := s.authCalls + 1 }
    if respOk resp.status then
      (Except.ok resp.access_token, s1)
    else
      (Except.error (ApiError.tokenFetchFailed resp.status resp.statusText), s1)

/-- `loadTokenFromFile` (lines 108-113): if the file exists and has
size > 0, return its content trimmed; else return null. -/
def loadTokenFromFile (s : St) : Option String :=
  match s.tokenFile with
  | some content => if content.length > 0 then some (jsTrim content) else none
  | none => none

/-- `saveTokenToFile` (lines 115-117): overwrite the file with the
token. -/
def saveTokenToFile (s : St) (token : String) : St :=
  { s with tokenFile := some token }

/-- `clearTokenFile` (lines 119-123): delete the file if present (net
effect either way: file absent). -/
def clearTokenFile (s : St) : St :=
  { s with tokenFile := none }

/-- The common tail of `ensureValidToken` and `refreshToken`:
`this.accessToken = await this.fetchAccessToken(); this.saveTokenToFile(this.accessToken);`
On a fetch error nothing is assigned (the await rejects before the
assignment), so memory and file are left as they were. -/
def fetchAndPersist (s : St) (net : Net) : Except ApiError String × St :=
  match fetchAccessToken s net with
  | (Except.ok tok, s1) => (Except.ok tok, saveTokenToFile { s1 with accessToken := some tok } tok)
  | (Except.error e, s1) => (Except.error e, s1)

/-- `ensureValidToken` (lines 125-143), with its exact control flow:
when `this.accessToken` is truthy the load-from-file block is skipped
and control falls through to the fetch; when it is falsy the file is
consulted, a truthy trimmed content is adopted into memory and
returned, and otherwise control falls through to the fetch. -/
def ensureValidToken (s : St) (net : Net) : Except ApiError String × St :=
  if strTruthy s.accessToken then
    fetchAndPersist s net
  else
    match loadTokenFromFile s with
    | some t =>
      if t = "" then fetchAndPersist s net
      else (Except.ok t, { s with accessToken := some t })
    | none => fetchAndPersist s net

/-- `refreshToken` (lines 145-152): clear the durable file, then fetch
a new token, assign it to memory and save it to the file. -/
def refreshToken (s : St) (net : Net) : Except ApiError String × St :=
  fetchAndPersist (clearTokenFile s) net

/-- `makeAuthenticatedRequest` (lines 154-186): obtain a token via
`ensureValidToken`, GET the url with that bearer token; on 401 refresh
the token and retry the identical url once, throwing with the retry's
status when the retry is not ok; on any other non-ok status throw with
that status; on ok return the body. -/
def makeAuthenticatedRequest (url : String) (s : St) (net : Net) : Except ApiError String × St :=
  match ensureValidToken s net with
  | (Except.error e, s1) => (Except.error e, s1)
  | (Except.ok token, s1) =>
    let resp := net.res s1.resCalls.length
    let s2 := { s1 with resCalls := s1.resCalls ++ [(url, token)] }
    if resp.status = 401 then
      match refreshToken s2 net with
      | (Except.error e, s3) => (Except.error e, s3)
      | (Except.ok token2, s3) =>
        let retryResp := net.res s3.resCalls.length
        let s4 := { s3 with resCalls := s3.resCalls ++ [(url, token2)] }
        if respOk retryResp.status then
          (Except.ok retryResp.body, s4)
        else
          (Except.error (ApiError.requestFailedAfterRefresh retryResp.status), s4)
    else if respOk resp.status then
      (Except.ok resp.body, s2)
    else
      (Except.error (ApiError.requestFailed resp.status), s2)

/-- Legacy `getAccessToken(clientId, clientSecret)` (lines 269-272):
constructs a fresh client (no in-memory token, zero prior calls) over
the ambient file slot and runs `ensureValidToken`. -/
def getAccessToken (clientId clientSecret : Option String) (net : Net) (file : Option String) :
    Except ApiError String × St :=
  ensureValidToken
    { clientId := clientId, clientSecret := clientSecret, accessToken := none,
      tokenFile := file, authCalls := 0, resCalls := [] } net

/-! Concrete states and network oracles used by witnesses and
counterexamples. -/

/-- A client built with credentials, cold state: no in-memory token, no
durable file. -/
def stCold : St :=
  { clientId := some "id", clientSecret := some "sec", accessToken := none,
    tokenFile := none, authCalls := 0, resCalls := [] }

/-- A client built without credentials, warm durable state: no
in-memory token, durable file holding "tok". -/
def stWarmNoCreds : St :=
  { clientId := none, clientSecret := none, accessToken := none,
    tokenFile := some "tok", authCalls := 0, resCalls := [] }

/-- A client built without credentials, with a token "tok" cached both
in memory and in the durable file. -/
def stMemNoCreds : St :=
  { clientId := none, clientSecret := none, accessToken := some "tok",
    tokenFile := some "tok", authCalls := 0, resCalls := [] }

/-- A client built with credentials, warm durable state: no in-memory
token, durable file holding "old". -/
def stWarmWithCreds : St :=
  { clientId := some "id", clientSecret := some "sec", accessToken := none,
    tokenFile := some "old", authCalls := 0, resCalls := [] }

/-- The state of `stWarmWithCreds` right after `ensureValidToken`
adopted the durable "old" into memory. -/
def stWarmWithCredsLoaded : St :=
  { clientId := some "id", clientSecret := some "sec", accessToken := some "old",
    tokenFile := some "old", authCalls := 0, resCalls := [] }

/-- A network where the authentication endpoint always succeeds
(distinct tokens per call) and every resource GET returns 401. -/
def netAuthOkRes401 : Net :=
  { auth := fun k => AuthResp.mk 200 "OK" (if k = 0 then "t1" else "t2"),
    res := fun _ => ResResp.mk 401 "unauthorized" }

/-- A network where the authentication endpoint always fails with 500
and every resource GET returns 401. -/
def netAuthFailRes401 : Net :=
  { auth := fun _ => AuthResp.mk 500 "Internal Server Error" "unused",
    res := fun _ => ResResp.mk 401 "unauthorized" }

/-- A network where the authentication endpoint always fails with 500
and every resource GET returns 404. -/
def netAuthFailRes404 : Net :=
  { auth := fun _ => AuthResp.mk 500 "Internal Server Error" "unused",
    res := fun _ => ResResp.mk 404 "not found" }

/-! Helper lemmas. -/

/-- When both credentials are truthy and the next authentication
response is ok, `fetchAndPersist` returns that response's token and
writes it to both memory and the durable file, incrementing the
auth-call counter by one and touching nothing else. -/
theorem fetchAndPersist_ok_eq (s : St) (net : Net)
    (hcid : strTruthy s.clientId = true) (hsec : strTruthy s.clientSecret = true)
    (hok : respOk (net.auth s.authCalls).status = true) :
    fetchAndPersist s net =
      (Except.ok (net.auth s.authCalls).access_token,
       { s with accessToken := some (net.auth s.authCalls).access_token,
                tokenFile := some (net.auth s.authCalls).access_token,
                authCalls := s.authCalls + 1 }) := by
  unfold fetchAndPersist fetchAccessToken saveTokenToFile
  simp [hcid, hsec, hok]

/-- `fetchAccessToken` never touches the durable file or the in-memory
token: it only reads the credentials, consumes one auth response and
bumps the call counter. -/
theorem fetchAccessToken_state (s : St) (net : Net) :
    ((fetchAccessToken s net).2).tokenFile = s.tokenFile ∧
    ((fetchAccessToken s net).2).accessToken = s.accessToken := by
  unfold fetchAccessToken
  split
  · exact ⟨rfl, rfl⟩
  · by_cases h2 : respOk (net.auth s.authCalls).status = true <;> simp [h2]

/-- Claim C2: refuted by the code — with an in-memory token "t1"
already set after a first successful `ensureValidToken`, a second call
does not return the in-memory token: it contacts the authentication
endpoint again (two auth calls in total across the two consecutive
calls) and returns the freshly fetched "t2".  This contradicts the
source's own comment that a new token is fetched only "if none
exists". -/
theorem c2_in_memory_token_not_reused :
    ((ensureValidToken stCold netAuthOkRes401).2).accessToken = some "t1" ∧
    (ensureValidToken ((ensureValidToken stCold netAuthOkRes401).2) netAuthOkRes401).1 =
      Except.ok "t2" ∧
    ((ensureValidToken ((ensureValidToken stCold netAuthOkRes401).2) netAuthOkRes401).2).authCalls = 2 :=
  ⟨rfl, rfl, rfl⟩

/-- Claim C7: refuted by the code — a client holding a non-empty
cached token both in memory and in the durable file, but missing
credentials, still fails `ensureValidToken` with the configuration
error (and makes no network call), because the truthy in-memory token
routes control to the fetch path instead of being returned. -/
theorem c7_config_error_despite_cached_token :
    (ensureValidToken stMemNoCreds netAuthFailRes404).1 = Except.error ApiError.configError ∧
    ((ensureValidToken stMemNoCreds netAuthFailRes404).2).authCalls = 0 :=
  ⟨rfl, rfl⟩

/-- Claim C3 (counterexample): a 401-triggered invalidation whose
re-acquisition fails (auth endpoint answers 500) completes with the
durable record deleted but the in-memory value still holding the old
token "old" — the in-memory value is not cleared, contradicting the
claim. -/
theorem c3_counterexample :
    (makeAuthenticatedRequest "u" stWarmWithCreds netAuthFailRes401).1 =
      Except.error (ApiError.tokenFetchFailed 500 "Internal Server Error") ∧
    ((makeAuthenticatedRequest "u" stWarmWithCreds netAuthFailRes401).2).tokenFile = none ∧
    ((makeAuthenticatedRequest "u" stWarmWithCreds netAuthFailRes401).2).accessToken = some "old" :=
  ⟨rfl, rfl, rfl⟩

/-- Claim C3 (amended): after `refreshToken` (the 401-triggered
invalidate-and-refresh) completes, the durable record is deleted and,
on successful re-acquisition, durable file and in-memory token both
hold the new value; on failed re-acquisition the durable record is
absent while the in-memory value is retained unchanged (not cleared). -/
theorem c3_refresh_mirror (s : St) (net : Net) :
    match refreshToken s net with
    | (Except.ok t, s1) => s1.tokenFile = some t ∧ s1.accessToken = some t
    | (Except.error _, s1) => s1.tokenFile = none ∧ s1.accessToken = s.accessToken := by
  have hpres := fetchAccessToken_state (clearTokenFile s) net
  unfold refreshToken fetchAndPersist
  rcases hf : fetchAccessToken (clearTokenFile s) net with ⟨r, s1⟩
  rw [hf] at hpres
  cases r with
  | ok t => simp [saveTokenToFile]
  | error e =>
    simp only []
    exact ⟨hpres.1, hpres.2⟩

/-- Claim C4: in `refreshToken` the durable record is deleted before
the new token is acquired: the state entering the acquisition has no
durable record (and a crash-and-restart loading it would see absent),
the acquisition step itself never writes the durable file, and the file
becomes non-absent again only with the save of the newly fetched
token. -/
theorem c4_clear_before_save (s : St) (net : Net) :
    (clearTokenFile s).tokenFile = none ∧
    loadTokenFromFile (clearTokenFile s) = none ∧
    refreshToken s net = fetchAndPersist (clearTokenFile s) net ∧
    (∀ s1 : St, ((fetchAccessToken s1 net).2).tokenFile = s1.tokenFile) ∧
    (match fetchAndPersist (clearTokenFile s) net with
     | (Except.ok t, s1) => s1.tokenFile = some t
     | (Except.error _, s1) => s1.tokenFile = none) := by
  refine ⟨rfl, rfl, rfl, fun s1 => (fetchAccessToken_state s1 net).1, ?_⟩
  have hpres := fetchAccessToken_state (clearTokenFile s) net
  unfold fetchAndPersist
  rcases hf : fetchAccessToken (clearTokenFile s) net with ⟨r, s1⟩
  rw [hf] at hpres
  cases r with
  | ok t => simp [saveTokenToFile]
  | error e =>
    simp only []
    exact hpres.1

/-- Claim C9 (counterexample): save followed by load does not return
the saved value for every token string — saving the empty string then
loading yields absent (the load maps an empty record to absent), and
saving a whitespace-padded value then loading yields its trim, not the
value itself. -/
theorem c9_counterexample :
    loadTokenFromFile (saveTokenToFile stCold "") = none ∧
    loadTokenFromFile (saveTokenToFile stCold "") ≠ some "" ∧
    loadTokenFromFile (saveTokenToFile stCold " x") = some "x" ∧
    loadTokenFromFile (saveTokenToFile stCold " x") ≠ some " x" :=
  ⟨rfl, by decide, rfl, by decide⟩

/-- Claim C9 (amended): for every token value that is non-empty and
free of leading/trailing whitespace (its own trim), save followed by
load returns it; saving it twice leaves the slot in exactly the state
of saving it once, and load still returns it; clear followed by load
returns absent. -/
theorem c9_save_load_roundtrip (s : St) (v : String)
    (hlen : 0 < v.length) (htrim : jsTrim v = v) :
    loadTokenFromFile (saveTokenToFile s v) = some v ∧
    saveTokenToFile (saveTokenToFile s v) v = saveTokenToFile s v ∧
    loadTokenFromFile (saveTokenToFile (saveTokenToFile s v) v) = some v ∧
    (∀ s1 : St, loadTokenFromFile (clearTokenFile s1) = none) := by
  refine ⟨?_, rfl, ?_, fun s1 => rfl⟩ <;>
    simp [loadTokenFromFile, saveTokenToFile, hlen, htrim]

/-- Witness for C9's amended theorem at the concrete token "tok". -/
theorem c9_save_load_roundtrip_witness :
    loadTokenFromFile (saveTokenToFile stCold "tok") = some "tok" ∧
    saveTokenToFile (saveTokenToFile stCold "tok") "tok" = saveTokenToFile stCold "tok" ∧
    loadTokenFromFile (saveTokenToFile (saveTokenToFile stCold "tok") "tok") = some "tok" ∧
    (∀ s1 : St, loadTokenFromFile (clearTokenFile s1) = none) :=
  c9_save_load_roundtrip stCold "tok" (by decide) rfl

/-- Claim C5: with no (truthy) in-memory token and a durable record
whose load yields a non-empty value t, `ensureValidToken` adopts t into
memory and returns it; the only state change is the in-memory field, so
in particular no authentication-endpoint call is made and the durable
file is untouched. -/
theorem c5_warm_start_adopts_durable (s : St) (net : Net) (t : String)
    (hmem : strTruthy s.accessToken = false)
    (hload : loadTokenFromFile s = some t) (ht : t ≠ "") :
    ensureValidToken s net = (Except.ok t, { s with accessToken := some t }) ∧
    ((ensureValidToken s net).2).authCalls = s.authCalls := by
  have h : ensureValidToken s net = (Except.ok t, { s with accessToken := some t }) := by
    unfold ensureValidToken
    simp [hmem, hload, ht]
  exact ⟨h, by rw [h]⟩

/-- Witness for C5: credential-less client, durable file "tok"; the
call returns "tok" with zero authentication calls. -/
theorem c5_warm_start_witness :
    ensureValidToken stWarmNoCreds netAuthFailRes404 =
      (Except.ok "tok",
       { clientId := none, clientSecret := none, accessToken := some "tok",
         tokenFile := some "tok", authCalls := 0, resCalls := [] }) ∧
    ((ensureValidToken stWarmNoCreds netAuthFailRes404).2).authCalls = 0 :=
  c5_warm_start_adopts_durable stWarmNoCreds netAuthFailRes404 "tok" rfl rfl (by decide)

/-- Claim C6: with no truthy in-memory token, no loadable durable
record, both credentials present and the authentication endpoint
answering ok, `ensureValidToken` makes exactly one
authentication-endpoint call, stores the fetched token in memory,
persists it to the durable file and returns it. -/
theorem c6_cold_start_fetches_once (s : St) (net : Net)
    (hmem : strTruthy s.accessToken = false)
    (hload : strTruthy (loadTokenFromFile s) = false)
    (hcid : strTruthy s.clientId = true) (hsec : strTruthy s.clientSecret = true)
    (hok : respOk (net.auth s.authCalls).status = true) :
    ensureValidToken s net =
      (Except.ok (net.auth s.authCalls).access_token,
       { s with accessToken := some (net.auth s.authCalls).access_token,
                tokenFile := some (net.auth s.authCalls).access_token,
                authCalls := s.authCalls + 1 }) := by
  have hfp := fetchAndPersist_ok_eq s net hcid hsec hok
  unfold ensureValidToken
  rcases hl : loadTokenFromFile s with _ | t
  · simp [hmem, hl, hfp]
  · rw [hl] at hload
    have ht : t = "" := by simpa [strTruthy] using hload
    subst ht
    simp [hmem, hl, hfp]

/-- Witness for C6: cold start with credentials; the call returns the
fetched "t1", persisted and counted as the single auth call. -/
theorem c6_cold_start_witness :
    ensureValidToken stCold netAuthOkRes401 =
      (Except.ok "t1",
       { clientId := some "id", clientSecret := some "sec", accessToken := some "t1",
         tokenFile := some "t1", authCalls := 1, resCalls := [] }) :=
  c6_cold_start_fetches_once stCold netAuthOkRes401 rfl rfl rfl rfl rfl

/-- Claim C8: when the token was obtained and the resource GET answers
a non-2xx status other than 401, `makeAuthenticatedRequest` fails with
the request error carrying that status, having issued exactly that one
GET (no retry) and no further authentication-endpoint call beyond
whatever `ensureValidToken` itself did. -/
theorem c8_non_auth_failure_not_retried (s s1 : St) (net : Net) (url tok : String)
    (hens : ensureValidToken s net = (Except.ok tok, s1))
    (h401 : (net.res s1.resCalls.length).status ≠ 401)
    (hnok : respOk (net.res s1.resCalls.length).status = false) :
    makeAuthenticatedRequest url s net =
      (Except.error (ApiError.requestFailed (net.res s1.resCalls.length).status),
       { s1 with resCalls := s1.resCalls ++ [(url, tok)] }) ∧
    ((makeAuthenticatedRequest url s net).2).authCalls = s1.authCalls := by
  have h : makeAuthenticatedRequest url s net =
      (Except.error (ApiError.requestFailed (net.res s1.resCalls.length).status),
       { s1 with resCalls := s1.resCalls ++ [(url, tok)] }) := by
    unfold makeAuthenticatedRequest
    rw [hens]
    simp [h401, hnok]
  exact ⟨h, by rw [h]⟩

/-- Witness for C8: warm credential-less client, resource answers 404;
the call fails with status 404 after one GET and zero
authentication-endpoint calls in total. -/
theorem c8_witness :
    makeAuthenticatedRequest "https://api/resource" stWarmNoCreds netAuthFailRes404 =
      (Except.error (ApiError.requestFailed 404),
       { clientId := none, clientSecret := none, accessToken := some "tok",
         tokenFile := some "tok", authCalls := 0,
         resCalls := [("https://api/resource", "tok")] }) ∧
    ((makeAuthenticatedRequest "https://api/resource" stWarmNoCreds netAuthFailRes404).2).authCalls = 0 :=
  c8_non_auth_failure_not_retried stWarmNoCreds stMemNoCreds netAuthFailRes404
    "https://api/resource" "tok" rfl (by decide) rfl

/-- Claim C1: when the first GET answers 401 and the refresh's
authentication call succeeds, `makeAuthenticatedRequest` performs
exactly one refresh (one extra authentication call) and exactly one
retry GET of the identical url with the new token; when that retry is
non-2xx (a second 401 included) the call fails with the error carrying
the retry's status, and the final trace shows exactly two resource
requests — no third is issued. -/
theorem c1_double_401_fatal (s s1 : St) (net : Net) (url tok : String)
    (hens : ensureValidToken s net = (Except.ok tok, s1))
    (hcid : strTruthy s1.clientId = true) (hsec : strTruthy s1.clientSecret = true)
    (h401 : (net.res s1.resCalls.length).status = 401)
    (hauth : respOk (net.auth s1.authCalls).status = true)
    (hretry : respOk (net.res (s1.resCalls.length + 1)).status = false) :
    makeAuthenticatedRequest url s net =
      (Except.error (ApiError.requestFailedAfterRefresh (net.res (s1.resCalls.length + 1)).status),
       { s1 with accessToken := some (net.auth s1.authCalls).access_token,
                 tokenFile := some (net.auth s1.authCalls).access_token,
                 authCalls := s1.authCalls + 1,
                 resCalls := s1.resCalls ++
                   [(url, tok), (url, (net.auth s1.authCalls).access_token)] }) := by
  have hfp := fetchAndPersist_ok_eq
    (clearTokenFile { s1 with resCalls := s1.resCalls ++ [(url, tok)] }) net hcid hsec hauth
  simp only [clearTokenFile] at hfp
  unfold makeAuthenticatedRequest
  rw [hens]
  unfold refreshToken
  simp [h401, clearTokenFile, hfp, hretry]

/-- Witness for C1: warm client, auth endpoint healthy, resource
answers 401 twice; the call fails with the retry's 401 and the trace
shows exactly two GETs of the same url and one refresh. -/
theorem c1_witness :
    makeAuthenticatedRequest "https://api/r" stWarmWithCreds netAuthOkRes401 =
      (Except.error (ApiError.requestFailedAfterRefresh 401),
       { clientId := some "id", clientSecret := some "sec", accessToken := some "t1",
         tokenFile := some "t1", authCalls := 1,
         resCalls := [("https://api/r", "old"), ("https://api/r", "t1")] }) :=
  c1_double_401_fatal stWarmWithCreds stWarmWithCredsLoaded netAuthOkRes401
    "https://api/r" "old" rfl rfl rfl rfl rfl rfl

/-- Claim C10: when the durable file holds a record whose load yields a
non-empty value, the legacy `getAccessToken` returns that stored value
for every choice of credentials and every network, with zero
authentication-endpoint calls — its result depends only on the file
state, not on the credential arguments. -/
theorem c10_creds_ignored_with_cache (c t : String) (hlen : 0 < c.length)
    (htrim : jsTrim c = t) (ht : t ≠ "")
    (clientId clientSecret : Option String) (net : Net) :
    getAccessToken clientId clientSecret net (some c) =
      (Except.ok t,
       { clientId := clientId, clientSecret := clientSecret, accessToken := some t,
         tokenFile := some c, authCalls := 0, resCalls := [] }) := by
  unfold getAccessToken ensureValidToken loadTokenFromFile
  simp [strTruthy, hlen, htrim, ht]

/-- Witness for C10: two different credential pairs (one of them
undefined) over two different networks both return the stored "tok"
with zero authentication calls. -/
theorem c10_witness :
    (getAccessToken (some "idA") (some "secA") netAuthFailRes404 (some "tok")).1 =
      Except.ok "tok" ∧
    (getAccessToken none none netAuthOkRes401 (some "tok")).1 = Except.ok "tok" ∧
    ((getAccessToken (some "idA") (some "secA") netAuthFailRes404 (some "tok")).2).authCalls = 0 ∧
    ((getAccessToken none none netAuthOkRes401 (some "tok")).2).authCalls = 0 := by
  have h1 := c10_creds_ignored_with_cache "tok" "tok" (by decide) rfl (by decide)
    (some "idA") (some "secA") netAuthFailRes404
  have h2 := c10_creds_ignored_with_cache "tok" "tok" (by decide) rfl (by decide)
    none none netAuthOkRes401
  exact ⟨by rw [h1], by rw [h2], by rw [h1], by rw [h2]⟩

end OpenSky
